import Mathlib

/-!
Shallow embedding of `src/src/sem.c` (funtoohub/libpthread): the POSIX semaphore
adapter over the Windows native counting-semaphore API.

Modelling conventions:
* A native counting-semaphore object is its counter (`NativeSem`); the maximum
  count is always `SEM_VALUE_MAX`, exactly as every `CreateSemaphore` call in
  the source passes `SEM_VALUE_MAX` as `lMaximumCount`.
* A `sem_t` handle as seen by an adapter operation is `Option NativeSem`:
  `none` is the NULL handle, `some s` a live wrapper whose native object has
  counter `s.count`.  The C code's cast `arch_sem_t *pv = (arch_sem_t *) sem`
  followed by the `sem == NULL || pv == NULL` test collapses, at this level of
  abstraction, to the test whether the handle is `none`.
* The native calls are modelled deterministically in the single-threaded,
  healthy-handle view: `WaitForSingleObject` acquires when the counter is
  positive, times out (finite timeout) or blocks forever (INFINITE) when it is
  zero; `ReleaseSemaphore` fails exactly when the release would push the
  counter past the maximum (`ERROR_TOO_MANY_POSTS`).  The C branches for other
  native error codes (`WAIT_FAILED`, unclassified release failure) are
  unreachable in this view and therefore do not appear as separate outcomes.
* Calls whose interesting content is their side effects (`sem_init`,
  `sem_open`, `sem_destroy`) return effect records that track what was
  allocated, freed, obtained from and returned to the native layer, mirroring
  the source line by line.  Nondeterministic environment outcomes (allocation
  success, `CreateSemaphore` outcome, `CloseHandle` success) are explicit
  oracle parameters.
-/

/-- Error classifications the adapter stores through `set_errno`. -/
inductive Errno where
  | EINVAL
  | ENOMEM
  | ENOSPC
  | EAGAIN
  | ETIMEDOUT
  | EOVERFLOW
  | EACCES
  | ENOENT
  | EEXIST
  deriving DecidableEq

/-- Modelled from the spec: `SEM_VALUE_MAX`, the maximum representable
semaphore value, comes from the library's `semaphore.h`, which is not under
`src/`; the spec only requires it to be the fixed upper bound passed to native
creation and checked against initial values.  We take the header's value,
`INT_MAX` of a 32-bit `int`. -/
def SEM_VALUE_MAX : Nat := 2147483647

/-- State of one native bounded counting-semaphore object: its current count.
Its maximum count is `SEM_VALUE_MAX` (see module comment). -/
structure NativeSem where
  count : Nat
  deriving DecidableEq

/-- Result of `WaitForSingleObject` on a native semaphore, single-threaded
view: `object0` is `WAIT_OBJECT_0` together with the post-decrement state,
`timeout` is `WAIT_TIMEOUT` (state unchanged), `blocks` means the call never
returns (counter zero, INFINITE timeout, nobody to post). -/
inductive Wfso where
  | object0 (after : NativeSem)
  | timeout
  | blocks
  deriving DecidableEq

/-- `WaitForSingleObject(handle, timeout)` on the semaphore state `s`.
`timeout_ms = none` encodes INFINITE, `some t` a finite timeout of `t`
milliseconds (`some 0` is the zero-timeout poll used by `sem_trywait` and the
`sem_getvalue` probe). -/
def WaitForSingleObject (s : NativeSem) (timeout_ms : Option Nat) : Wfso :=
  if 0 < s.count then
    Wfso.object0 ⟨s.count - 1⟩
  else
    match timeout_ms with
    | some _ => Wfso.timeout
    | none => Wfso.blocks

/-- `ReleaseSemaphore(handle, n, &previous)` on state `s`: fails
(`ERROR_TOO_MANY_POSTS`, returning `none`, state unchanged) when the release
would exceed the maximum count, otherwise returns the previous count and the
incremented state. -/
def ReleaseSemaphore (s : NativeSem) (n : Nat) : Option (Nat × NativeSem) :=
  if SEM_VALUE_MAX < s.count + n then
    none
  else
    some (s.count, ⟨s.count + n⟩)

/-- Return channel of the handle-consuming adapter calls: `ok` with a payload
(return value 0), `err` with the classification stored in `errno`
(return value -1), `nullDeref` when the C code dereferences a NULL pointer
(undefined behaviour, no defined return), `blocks` when the underlying
INFINITE wait never returns. -/
inductive Outcome (α : Type) where
  | ok : α → Outcome α
  | err : Errno → Outcome α
  | nullDeref : Outcome α
  | blocks : Outcome α
  deriving DecidableEq

/-- `sem_wait` (src/src/sem.c:77-88): NULL handle fails `EINVAL`; otherwise
`WaitForSingleObject(handle, INFINITE)`, success on `WAIT_OBJECT_0` and
`EINVAL` on any other returned code.  The second component is the semaphore
state after the call. -/
def sem_wait (sem : Option NativeSem) : Outcome Unit × Option NativeSem :=
  match sem with
  | none => (Outcome.err Errno.EINVAL, none)
  | some s =>
    match WaitForSingleObject s none with
    | Wfso.object0 s1 => (Outcome.ok (), some s1)
    | Wfso.timeout => (Outcome.err Errno.EINVAL, some s)
    | Wfso.blocks => (Outcome.blocks, some s)

/-- `sem_trywait` (src/src/sem.c:97-112): NULL handle fails `EINVAL`;
otherwise a zero-timeout `WaitForSingleObject`, success on `WAIT_OBJECT_0`,
`EAGAIN` on `WAIT_TIMEOUT` (the C fall-through to `EINVAL` for other codes is
unreachable in the deterministic native view). -/
def sem_trywait (sem : Option NativeSem) : Outcome Unit × Option NativeSem :=
  match sem with
  | none => (Outcome.err Errno.EINVAL, none)
  | some s =>
    match WaitForSingleObject s (some 0) with
    | Wfso.object0 s1 => (Outcome.ok (), some s1)
    | Wfso.timeout => (Outcome.err Errno.EAGAIN, some s)
    | Wfso.blocks => (Outcome.blocks, some s)

/-- Absolute time in seconds plus nanoseconds since the POSIX epoch, the
`struct timespec` of `sem_timedwait`. -/
structure timespec where
  tv_sec : Int
  tv_nsec : Int
  deriving DecidableEq

/-- Total nanoseconds of a `timespec`. -/
def timespec.toNs (t : timespec) : Int :=
  t.tv_sec * 1000000000 + t.tv_nsec

/-- Modelled from the spec: `arch_rel_time_in_ms` is declared in `arch.h` /
`misc.c`, which are not under `src/`.  Per the spec it converts the absolute
deadline to the relative duration understood by the native call: deadline
minus current time, floored at zero, expressed in milliseconds.  The current
time is an explicit parameter. -/
def arch_rel_time_in_ms (abs_timeout now : timespec) : Nat :=
  (abs_timeout.toNs - now.toNs).toNat / 1000000

/-- `sem_timedwait` (src/src/sem.c:124-139): NULL handle fails `EINVAL`;
otherwise `WaitForSingleObject` with the relative timeout computed by
`arch_rel_time_in_ms`, success on `WAIT_OBJECT_0`, `ETIMEDOUT` on
`WAIT_TIMEOUT`.  `now` is the current time read inside
`arch_rel_time_in_ms`. -/
def sem_timedwait (sem : Option NativeSem) (abs_timeout now : timespec) :
    Outcome Unit × Option NativeSem :=
  match sem with
  | none => (Outcome.err Errno.EINVAL, none)
  | some s =>
    match WaitForSingleObject s (some (arch_rel_time_in_ms abs_timeout now)) with
    | Wfso.object0 s1 => (Outcome.ok (), some s1)
    | Wfso.timeout => (Outcome.err Errno.ETIMEDOUT, some s)
    | Wfso.blocks => (Outcome.blocks, some s)

/-- `sem_post` (src/src/sem.c:148-162): NULL handle fails `EINVAL`; otherwise
`ReleaseSemaphore(handle, 1, NULL)`; on failure `GetLastError()` is
`ERROR_TOO_MANY_POSTS` in the deterministic native view, so the failure is
classified `EOVERFLOW` and the state is unchanged. -/
def sem_post (sem : Option NativeSem) : Outcome Unit × Option NativeSem :=
  match sem with
  | none => (Outcome.err Errno.EINVAL, none)
  | some s =>
    match ReleaseSemaphore s 1 with
    | none => (Outcome.err Errno.EOVERFLOW, some s)
    | some (_, s2) => (Outcome.ok (), some s2)

/-- `sem_getvalue` (src/src/sem.c:172-189).  Note that, unlike every other
operation in the file, it performs no NULL test before reading `pv->handle`:
on a NULL handle it dereferences the NULL pointer.  On a live handle it probes
with a zero-timeout wait; on `WAIT_OBJECT_0` it re-increments by 1 with
`ReleaseSemaphore`, writing `previous + 1` to `*value`; on `WAIT_TIMEOUT` it
writes 0.  The `ok` payload is the value written to `*value`. -/
def sem_getvalue (sem : Option NativeSem) : Outcome Nat × Option NativeSem :=
  match sem with
  | none => (Outcome.nullDeref, none)
  | some s =>
    match WaitForSingleObject s (some 0) with
    | Wfso.object0 s1 =>
      match ReleaseSemaphore s1 1 with
      | none => (Outcome.err Errno.EINVAL, some s1)
      | some (previous, s2) => (Outcome.ok (previous + 1), some s2)
    | Wfso.timeout => (Outcome.ok 0, some s)
    | Wfso.blocks => (Outcome.blocks, some s)

/-- Effects of a `sem_destroy` / `sem_close` call: the returned
classification (`none` = returned 0), the caller's handle variable after the
call (`*sem` is set to NULL exactly on the success path), and whether the
wrapper allocation was freed. -/
structure DestroyResult where
  ret : Option Errno
  semAfter : Option NativeSem
  freed : Bool
  deriving DecidableEq

/-- `sem_destroy` (src/src/sem.c:198-212): NULL handle fails `EINVAL`;
`CloseHandle` failure (`closeOk = false`) fails `EINVAL` leaving the wrapper
allocated and the caller's handle untouched; on success the wrapper is freed
and `*sem` is set to NULL. -/
def sem_destroy (sem : Option NativeSem) (closeOk : Bool) : DestroyResult :=
  match sem with
  | none => { ret := some Errno.EINVAL, semAfter := none, freed := false }
  | some s =>
    if closeOk then
      { ret := none, semAfter := none, freed := true }
    else
      { ret := some Errno.EINVAL, semAfter := some s, freed := false }

/-- `sem_close` (src/src/sem.c:290-293) forwards to `sem_destroy`. -/
def sem_close (sem : Option NativeSem) (closeOk : Bool) : DestroyResult :=
  sem_destroy sem closeOk

/-- `sem_unlink` (src/src/sem.c:304-307) is a no-op returning 0. -/
def sem_unlink (_name : String) : Option Errno :=
  none

/-- Effects of a `sem_init` call: returned classification (`none` = 0),
whether `calloc` produced a wrapper, whether `CreateSemaphore` produced a
native object, whether the wrapper was freed again on a failure path, and the
handle stored to `*sem` (`none` when nothing was stored). -/
structure InitEffects where
  ret : Option Errno
  allocated : Bool
  nativeCreated : Bool
  freed : Bool
  semOut : Option NativeSem
  deriving DecidableEq

/-- `sem_init` (src/src/sem.c:46-68): a NULL `sem` out-pointer or
`value > SEM_VALUE_MAX` fails `EINVAL` before anything is acquired; `calloc`
failure (`allocOk = false`) fails `ENOMEM`; `CreateSemaphore` failure
(`nativeOk = false`) frees the wrapper and fails `ENOSPC`; otherwise the new
native object has counter `value` and the wrapper is stored to `*sem`.
`pshared` only selects the `Global\` name derived from the wrapper address
versus anonymous creation, which does not affect the observable effects
modelled here. -/
def sem_init (semIsNull : Bool) (pshared : Int) (value : Nat)
    (allocOk nativeOk : Bool) : InitEffects :=
  if semIsNull ∨ SEM_VALUE_MAX < value then
    { ret := some Errno.EINVAL, allocated := false, nativeCreated := false,
      freed := false, semOut := none }
  else if ¬allocOk then
    { ret := some Errno.ENOMEM, allocated := false, nativeCreated := false,
      freed := false, semOut := none }
  else if ¬nativeOk then
    { ret := some Errno.ENOSPC, allocated := true, nativeCreated := false,
      freed := true, semOut := none }
  else
    { ret := none, allocated := true, nativeCreated := true,
      freed := false, semOut := some ⟨value⟩ }

/-- Outcome of the `CreateSemaphore` call inside `sem_open`:
`createdNew` — success with `GetLastError() ≠ ERROR_ALREADY_EXISTS` (a fresh
native object whose counter is the requested value); `openedExisting e` —
success with `GetLastError() = ERROR_ALREADY_EXISTS` (a new reference to the
pre-existing object `e`, the requested initial value ignored);
`failAccessDenied` / `failInvalidHandle` / `failOther` — failure with the
corresponding `GetLastError()` classification, no native reference
obtained. -/
inductive CreateOutcome where
  | createdNew
  | openedExisting (existing : NativeSem)
  | failAccessDenied
  | failInvalidHandle
  | failOther
  deriving DecidableEq

/-- Effects of a `sem_open` call: the returned handle (`none` = `SEM_FAILED`),
the classification stored in `errno` on failure, whether `calloc` produced a
wrapper, whether that wrapper was freed again before returning, whether
`CreateSemaphore` returned a native reference, and whether `CloseHandle` was
called on that reference before returning. -/
structure OpenEffects where
  ret : Option NativeSem
  errno : Option Errno
  allocated : Bool
  freed : Bool
  nativeObtained : Bool
  nativeClosed : Bool
  deriving DecidableEq

/-- `sem_open` (src/src/sem.c:226-280).  Validation first:
`value > SEM_VALUE_MAX`, a name longer than `sizeof(buffer) - 8 = 512 - 8`
(so that `Global\` plus the name plus the terminator still fits the 512-byte
buffer), or an empty name fail `EINVAL` before anything is acquired.  Then the
wrapper is allocated (`allocOk`), the prefixed name is built, and
`CreateSemaphore` is called; its outcome is the oracle `outcome`.  On native
failure the error is mapped (`EACCES` / `ENOENT` / `ENOSPC`) and the wrapper
freed.  On success with `ERROR_ALREADY_EXISTS`: if both `O_CREAT` and
`O_EXCL` were requested, the reference is closed, the wrapper freed and the
call fails `EEXIST`; otherwise the handle to the existing object is returned.
On success without `ERROR_ALREADY_EXISTS`: if `O_CREAT` was not requested,
the wrapper is freed and the call fails `ENOENT` — the source closes nothing
on this path; otherwise the fresh handle is returned.  The ignored `mode`
argument is not modelled. -/
def sem_open (name : String) (creat excl : Bool) (value : Nat)
    (allocOk : Bool) (outcome : CreateOutcome) : OpenEffects :=
  if SEM_VALUE_MAX < value ∨ 512 - 8 < name.length ∨ name.length < 1 then
    { ret := none, errno := some Errno.EINVAL, allocated := false,
      freed := false, nativeObtained := false, nativeClosed := false }
  else if ¬allocOk then
    { ret := none, errno := some Errno.ENOMEM, allocated := false,
      freed := false, nativeObtained := false, nativeClosed := false }
  else
    match outcome with
    | CreateOutcome.failAccessDenied =>
      { ret := none, errno := some Errno.EACCES, allocated := true,
        freed := true, nativeObtained := false, nativeClosed := false }
    | CreateOutcome.failInvalidHandle =>
      { ret := none, errno := some Errno.ENOENT, allocated := true,
        freed := true, nativeObtained := false, nativeClosed := false }
    | CreateOutcome.failOther =>
      { ret := none, errno := some Errno.ENOSPC, allocated := true,
        freed := true, nativeObtained := false, nativeClosed := false }
    | CreateOutcome.openedExisting e =>
      if creat ∧ excl then
        { ret := none, errno := some Errno.EEXIST, allocated := true,
          freed := true, nativeObtained := true, nativeClosed := true }
      else
        { ret := some e, errno := none, allocated := true,
          freed := false, nativeObtained := true, nativeClosed := false }
    | CreateOutcome.createdNew =>
      if ¬creat then
        { ret := none, errno := some Errno.ENOENT, allocated := true,
          freed := true, nativeObtained := true, nativeClosed := false }
      else
        { ret := some ⟨value⟩, errno := none, allocated := true,
          freed := false, nativeObtained := true, nativeClosed := false }

/-! ## Claims -/

/-- C1: for every live semaphore handle whose counter respects the creation
invariant `count ≤ SEM_VALUE_MAX` (so that the probe's re-increment
succeeds), `sem_getvalue` writes the pre-call counter value to `*value` —
via the re-increment's reported previous count plus 1 when the zero-timeout
probe acquires, and 0 when the probe times out immediately — and leaves the
counter unchanged; consequently a second `sem_getvalue` on the resulting
state reports the same value again. -/
theorem sem_getvalue_pure_observer (s : NativeSem) (h : s.count ≤ SEM_VALUE_MAX) :
    sem_getvalue (some s) = (Outcome.ok s.count, some s) ∧
    sem_getvalue ((sem_getvalue (some s)).2) = (Outcome.ok s.count, some s) := by
  have h1 : sem_getvalue (some s) = (Outcome.ok s.count, some s) := by
    obtain ⟨c⟩ := s
    cases c with
    | zero => rfl
    | succ n =>
      have hn : ¬ SEM_VALUE_MAX < n + 1 := by
        simpa using h
      simp [sem_getvalue, WaitForSingleObject, ReleaseSemaphore, hn]
  refine ⟨h1, ?_⟩
  rw [h1]
  exact h1

/-- Witness for C1 at counter value 2. -/
theorem sem_getvalue_pure_observer_witness :
    sem_getvalue (some ⟨2⟩) = (Outcome.ok 2, some ⟨2⟩) ∧
    sem_getvalue ((sem_getvalue (some ⟨2⟩)).2) = (Outcome.ok 2, some ⟨2⟩) :=
  sem_getvalue_pure_observer ⟨2⟩ (by decide)

/-- C2, counterexample: `sem_getvalue`, called on the NULL handle, does not
fail with `EINVAL` — the source has no NULL test and dereferences the NULL
pointer (`WaitForSingleObject(pv->handle, 0)` with `pv == NULL`). -/
theorem sem_getvalue_null_dereferences :
    sem_getvalue none = (Outcome.nullDeref, (none : Option NativeSem)) ∧
    (sem_getvalue none).1 ≠ Outcome.err Errno.EINVAL :=
  ⟨rfl, by decide⟩

/-- C2, amended: every handle-taking operation except `sem_getvalue` —
`sem_wait`, `sem_trywait`, `sem_timedwait`, `sem_post`, `sem_destroy` and
`sem_close` — rejects the NULL handle with `EINVAL` without dereferencing
it. -/
theorem null_handle_rejected_except_getvalue :
    sem_wait none = (Outcome.err Errno.EINVAL, none) ∧
    sem_trywait none = (Outcome.err Errno.EINVAL, none) ∧
    (∀ d now : timespec, sem_timedwait none d now = (Outcome.err Errno.EINVAL, none)) ∧
    sem_post none = (Outcome.err Errno.EINVAL, none) ∧
    (∀ b : Bool, sem_destroy none b =
      { ret := some Errno.EINVAL, semAfter := none, freed := false }) ∧
    (∀ b : Bool, sem_close none b =
      { ret := some Errno.EINVAL, semAfter := none, freed := false }) :=
  ⟨rfl, rfl, fun _ _ => rfl, rfl, fun _ => rfl, fun _ => rfl⟩

/-- C3: evaluation of `sem_open` at the failing input — a valid name, no
`O_CREAT`, and a native create reporting a fresh object.  The call fails with
`ENOENT` and frees the wrapper, but `nativeClosed = false`: the native
reference obtained from `CreateSemaphore` is never closed on this failure
path (src/src/sem.c:271-275 has `free(pv)` but no `CloseHandle`), leaking
the just-created kernel object. -/
theorem sem_open_notfound_leaks_native :
    sem_open "x" false false 0 true CreateOutcome.createdNew =
      { ret := none, errno := some Errno.ENOENT, allocated := true,
        freed := true, nativeObtained := true, nativeClosed := false } := by
  decide

/-- C4: with both `O_CREAT` and `O_EXCL` set and a valid name and value, a
native create that reports a pre-existing object makes `sem_open` close the
just-obtained reference, free the wrapper, and fail with `EEXIST`. -/
theorem sem_open_excl_conflict_cleans_up (name : String) (v : Nat) (e : NativeSem)
    (hv : v ≤ SEM_VALUE_MAX) (hlo : 1 ≤ name.length) (hhi : name.length ≤ 512 - 8) :
    sem_open name true true v true (CreateOutcome.openedExisting e) =
      { ret := none, errno := some Errno.EEXIST, allocated := true,
        freed := true, nativeObtained := true, nativeClosed := true } := by
  have hcond : ¬ (SEM_VALUE_MAX < v ∨ 512 - 8 < name.length ∨ name.length < 1) := by
    omega
  simp only [sem_open]
  rw [if_neg hcond]
  simp

/-- Witness for C4 at name `x`, value 3, existing counter 0. -/
theorem sem_open_excl_conflict_cleans_up_witness :
    sem_open "x" true true 3 true (CreateOutcome.openedExisting ⟨0⟩) =
      { ret := none, errno := some Errno.EEXIST, allocated := true,
        freed := true, nativeObtained := true, nativeClosed := true } :=
  sem_open_excl_conflict_cleans_up "x" 3 ⟨0⟩ (by decide) (by decide) (by decide)

/-- C5: without `O_CREAT` (for either value of `O_EXCL`), with a valid name
and value, a native create that reports no pre-existing object makes
`sem_open` free the wrapper and fail with `ENOENT`. -/
theorem sem_open_strict_open_notfound (name : String) (excl : Bool) (v : Nat)
    (hv : v ≤ SEM_VALUE_MAX) (hlo : 1 ≤ name.length) (hhi : name.length ≤ 512 - 8) :
    sem_open name false excl v true CreateOutcome.createdNew =
      { ret := none, errno := some Errno.ENOENT, allocated := true,
        freed := true, nativeObtained := true, nativeClosed := false } := by
  have hcond : ¬ (SEM_VALUE_MAX < v ∨ 512 - 8 < name.length ∨ name.length < 1) := by
    omega
  simp only [sem_open]
  rw [if_neg hcond]
  simp

/-- Witness for C5 at name `x`, value 3. -/
theorem sem_open_strict_open_notfound_witness :
    sem_open "x" false false 3 true CreateOutcome.createdNew =
      { ret := none, errno := some Errno.ENOENT, allocated := true,
        freed := true, nativeObtained := true, nativeClosed := false } :=
  sem_open_strict_open_notfound "x" false 3 (by decide) (by decide) (by decide)

/-- C6: validation fails with `EINVAL` before any resource is acquired:
`sem_init` rejects every initial value above `SEM_VALUE_MAX` with no
allocation and no native creation; `sem_open` likewise rejects an over-large
value, an empty name, or a name longer than `sizeof(buffer) - 8`; and the
length bound is exactly the condition that the `Global\`-prefixed,
NUL-terminated name does not fit the 512-byte buffer. -/
theorem validation_precedes_acquisition (p : Int) (v : Nat) (a n : Bool)
    (name : String) (creat excl : Bool) (outcome : CreateOutcome) :
    (SEM_VALUE_MAX < v →
      sem_init false p v a n =
        { ret := some Errno.EINVAL, allocated := false, nativeCreated := false,
          freed := false, semOut := none }) ∧
    (SEM_VALUE_MAX < v ∨ 512 - 8 < name.length ∨ name.length < 1 →
      sem_open name creat excl v a outcome =
        { ret := none, errno := some Errno.EINVAL, allocated := false,
          freed := false, nativeObtained := false, nativeClosed := false }) ∧
    (512 - 8 < name.length ↔ 512 < ("Global\\" ++ name).length + 1) := by
  refine ⟨fun hv => ?_, fun hcond => ?_, ?_⟩
  · simp [sem_init, hv]
  · simp only [sem_open]
    rw [if_pos hcond]
  · rw [String.length_append]
    have h7 : ("Global\\" : String).length = 7 := rfl
    rw [h7]
    omega

/-- Witness for C6: value `SEM_VALUE_MAX + 1` for `sem_init`, empty name for
`sem_open`. -/
theorem validation_precedes_acquisition_witness :
    sem_init false 0 (SEM_VALUE_MAX + 1) true true =
      { ret := some Errno.EINVAL, allocated := false, nativeCreated := false,
        freed := false, semOut := none } ∧
    sem_open "" true true 0 true CreateOutcome.createdNew =
      { ret := none, errno := some Errno.EINVAL, allocated := false,
        freed := false, nativeObtained := false, nativeClosed := false } :=
  ⟨(validation_precedes_acquisition 0 (SEM_VALUE_MAX + 1) true true "x" true true
      CreateOutcome.createdNew).1 (by omega),
   (validation_precedes_acquisition 0 0 true true "" true true
      CreateOutcome.createdNew).2.1 (by decide)⟩

/-- C7: when the absolute deadline is not after the current time, the
conversion `arch_rel_time_in_ms` yields 0, and `sem_timedwait` behaves on
every semaphore state exactly like `sem_trywait`: it acquires and decrements
when the counter is positive, and fails immediately without blocking when the
counter is zero — with classification `ETIMEDOUT` where `sem_trywait` reports
`EAGAIN`. -/
theorem sem_timedwait_past_deadline_is_trywait (s : NativeSem) (d now : timespec)
    (h : d.toNs ≤ now.toNs) :
    arch_rel_time_in_ms d now = 0 ∧
    (0 < s.count →
      sem_timedwait (some s) d now = (Outcome.ok (), some ⟨s.count - 1⟩) ∧
      sem_trywait (some s) = (Outcome.ok (), some ⟨s.count - 1⟩)) ∧
    (s.count = 0 →
      sem_timedwait (some s) d now = (Outcome.err Errno.ETIMEDOUT, some s) ∧
      sem_trywait (some s) = (Outcome.err Errno.EAGAIN, some s)) := by
  have h0 : arch_rel_time_in_ms d now = 0 := by
    have ht : (d.toNs - now.toNs).toNat = 0 := by omega
    simp [arch_rel_time_in_ms, ht]
  refine ⟨h0, fun hc => ?_, fun hc => ?_⟩
  · constructor <;> simp [sem_timedwait, sem_trywait, WaitForSingleObject, hc]
  · constructor <;> simp [sem_timedwait, sem_trywait, WaitForSingleObject, hc]

/-- Witness for C7: deadline at the epoch, current time 5 seconds later,
counters 1 and 0. -/
theorem sem_timedwait_past_deadline_is_trywait_witness :
    sem_timedwait (some ⟨1⟩) ⟨0, 0⟩ ⟨5, 0⟩ = (Outcome.ok (), some ⟨0⟩) ∧
    sem_timedwait (some ⟨0⟩) ⟨0, 0⟩ ⟨5, 0⟩ = (Outcome.err Errno.ETIMEDOUT, some ⟨0⟩) ∧
    sem_trywait (some ⟨0⟩) = (Outcome.err Errno.EAGAIN, some ⟨0⟩) := by
  have h1 := sem_timedwait_past_deadline_is_trywait ⟨1⟩ ⟨0, 0⟩ ⟨5, 0⟩ (by decide)
  have h2 := sem_timedwait_past_deadline_is_trywait ⟨0⟩ ⟨0, 0⟩ ⟨5, 0⟩ (by decide)
  exact ⟨(h1.2.1 (by decide)).1, (h2.2.2 rfl).1, (h2.2.2 rfl).2⟩

/-- C8: `sem_post` on a semaphore whose counter is at `SEM_VALUE_MAX` fails
with `EOVERFLOW` and leaves the counter at the maximum; on any counter below
the maximum it succeeds and increments by exactly 1. -/
theorem sem_post_overflow_and_exact_increment (s : NativeSem) :
    (s.count = SEM_VALUE_MAX →
      sem_post (some s) = (Outcome.err Errno.EOVERFLOW, some s)) ∧
    (s.count < SEM_VALUE_MAX →
      sem_post (some s) = (Outcome.ok (), some ⟨s.count + 1⟩)) := by
  constructor
  · intro hc
    have hlt : SEM_VALUE_MAX < s.count + 1 := by omega
    simp [sem_post, ReleaseSemaphore, hlt]
  · intro hc
    have hlt : ¬ SEM_VALUE_MAX < s.count + 1 := by omega
    simp [sem_post, ReleaseSemaphore, hlt]

/-- Witness for C8 at counters `SEM_VALUE_MAX` and 3. -/
theorem sem_post_overflow_and_exact_increment_witness :
    sem_post (some ⟨SEM_VALUE_MAX⟩) = (Outcome.err Errno.EOVERFLOW, some ⟨SEM_VALUE_MAX⟩) ∧
    sem_post (some ⟨3⟩) = (Outcome.ok (), some ⟨4⟩) :=
  ⟨(sem_post_overflow_and_exact_increment ⟨SEM_VALUE_MAX⟩).1 rfl,
   (sem_post_overflow_and_exact_increment ⟨3⟩).2 (by decide)⟩

/-- C9: a successful `sem_destroy` frees the wrapper and sets the caller's
handle reference to NULL, and a second `sem_destroy` applied to that
now-cleared handle fails with `EINVAL` (for either `CloseHandle` oracle,
which the NULL path never consults). -/
theorem sem_destroy_invalidates_handle (s : NativeSem) (b : Bool) :
    sem_destroy (some s) true =
      { ret := none, semAfter := none, freed := true } ∧
    sem_destroy ((sem_destroy (some s) true).semAfter) b =
      { ret := some Errno.EINVAL, semAfter := none, freed := false } :=
  ⟨rfl, rfl⟩

/-- C10: when `CloseHandle` fails, `sem_destroy` returns `EINVAL` with the
wrapper still allocated (`freed = false`) and the caller's handle reference
unchanged. -/
theorem sem_destroy_error_preserves_state (s : NativeSem) :
    sem_destroy (some s) false =
      { ret := some Errno.EINVAL, semAfter := some s, freed := false } :=
  rfl
